import Mathlib

/-!
Shallow embedding of the backup validation pipeline of the
smart-backup-assistant repository: version parsing and comparison
(`backup_analyzer.py`), manifest extraction and integration inference
(`backup_analyzer.py`), the breaking-change store with its range query,
update operation and risk scoring (`breaking_changes.py`), and the
validation orchestrator `BackupManager.validate_backup`
(`backup_manager.py`).

Python dictionaries produced by the code are modelled as Lean structures
whose optional keys are `Option` fields; Python exceptions raised by
collaborators are modelled as `Except` inputs; strings are processed over
their character lists so that every definition evaluates by kernel
reduction.
-/

/-- Decimal digit characters folded into a natural number,
as `int()` does on a digit run. -/
def digitsToNat (cs : List Char) : Nat :=
  cs.foldl (fun a c => a * 10 + (c.toNat - 48)) 0

/-- Python `int(s)` on a plain ASCII decimal segment: an optional sign
followed by at least one digit, otherwise `ValueError` (modelled as
`none`).  CPython additionally accepts surrounding whitespace and `_`
digit separators; no claim touches those inputs. -/
def pyInt? (cs : List Char) : Option Int :=
  match cs with
  | '-' :: rest =>
      if rest ≠ [] ∧ rest.all (·.isDigit) then some (-(digitsToNat rest : Int)) else none
  | '+' :: rest =>
      if rest ≠ [] ∧ rest.all (·.isDigit) then some (digitsToNat rest : Int) else none
  | _ => if cs ≠ [] ∧ cs.all (·.isDigit) then some (digitsToNat cs : Int) else none

/-- Python `s.split('.')` over the character list (`"".split('.') = [""]`,
empty segments between consecutive dots are kept). -/
def splitOnDot : List Char → List (List Char)
  | [] => [[]]
  | c :: rest =>
    let r := splitOnDot rest
    if c = '.' then [] :: r
    else
      match r with
      | h :: t => (c :: h) :: t
      | [] => [[c]]

/-- The dictionary `{'year': ..., 'month': ..., 'patch': ...}` returned by
the `_parse_version` helpers. -/
structure VersionParts where
  year : Int
  month : Int
  patch : Int
deriving DecidableEq

namespace BackupAnalyzer

/-- `BackupAnalyzer._parse_version`: `version.lstrip('v')` (which removes
every leading `v` character), split on `.`, require at least two
segments, convert segments `0`/`1` (and `2` when present, else patch 0)
with `int`; a conversion error yields `None`. -/
def parse_version (version : String) : Option VersionParts :=
  match splitOnDot (version.data.dropWhile (· = 'v')) with
  | p0 :: p1 :: rest =>
    match pyInt? p0, pyInt? p1 with
    | some y, some m =>
      match rest with
      | [] => some ⟨y, m, 0⟩
      | p2 :: _ =>
        match pyInt? p2 with
        | some p => some ⟨y, m, p⟩
        | none => none
    | _, _ => none
  | _ => none

/-- Result dictionary of `BackupAnalyzer.compare_versions`; keys absent in
the unparseable branch are `none`. -/
structure VersionComparison where
  compatible : Bool
  reason : Option String
  version_diff : Option String
  year_diff : Option Int
  month_diff : Option Int
  total_months_diff : Option Int
deriving DecidableEq

/-- `BackupAnalyzer.compare_versions`: parse both versions (unparseable →
`compatible: False` with a reason), compare year, then month, then patch
for `older`/`newer`/`same`; `compatible = version_diff in ['same','older']`;
absolute year/month distances and `total_months_diff = year_diff*12 +
month_diff`. -/
def compare_versions (backup_version current_version : String) : VersionComparison :=
  match parse_version backup_version, parse_version current_version with
  | some b, some c =>
    let version_diff :=
      if b.year < c.year then "older"
      else if b.year > c.year then "newer"
      else if b.month < c.month then "older"
      else if b.month > c.month then "newer"
      else if b.patch < c.patch then "older"
      else if b.patch > c.patch then "newer"
      else "same"
    let compatible := version_diff == "same" || version_diff == "older"
    let year_diff := |c.year - b.year|
    let month_diff := |c.month - b.month|
    { compatible := compatible, reason := none, version_diff := some version_diff,
      year_diff := some year_diff, month_diff := some month_diff,
      total_months_diff := some (year_diff * 12 + month_diff) }
  | _, _ =>
    { compatible := false, reason := some "Could not parse version numbers",
      version_diff := none, year_diff := none, month_diff := none,
      total_months_diff := none }

end BackupAnalyzer

/-- A breaking-change record as stored in the database.  The code reads
every field with `dict.get`, so each field may be absent (`none`). -/
structure BreakingChange where
  id : Option String
  version : Option String
  integration : Option String
  title : Option String
  description : Option String
  severity : Option String
  url : Option String
deriving DecidableEq

/-- Smart constructor for the fully-populated records of the curated
dataset, in the field order of the Python literals. -/
def mkChange (id version integration title description severity url : String) :
    BreakingChange :=
  ⟨some id, some version, some integration, some title, some description,
   some severity, some url⟩

namespace BreakingChangesDB

/-- The `self.changes` dictionary: the record list under `'changes'` and
the `'last_update'` timestamp. -/
structure DbState where
  changes : List BreakingChange
  last_update : Option String
deriving DecidableEq

/-- `BreakingChangesDB._get_curated_breaking_changes`: the static curated
dataset (titles, descriptions and urls abbreviated to their identifying
prefixes; only `id`, `version`, `integration` and `severity` are ever
compared by the pipeline). -/
def get_curated_breaking_changes : List BreakingChange :=
  [ mkChange "mqtt_2024_10" "2024.10.0" "mqtt"
      "MQTT Discovery Topic Changes"
      "MQTT discovery topics have been reorganized. Devices may need to be reconfigured."
      "medium" "https://www.home-assistant.io/blog/2024/10/01/release-202410/",
    mkChange "zha_2024_9" "2024.9.0" "zha"
      "ZHA Device Naming Convention Changed"
      "Zigbee device names now follow a new convention. Automations may need updates."
      "high" "https://www.home-assistant.io/blog/2024/09/01/release-20249/",
    mkChange "esphome_2024_8" "2024.8.0" "esphome"
      "ESPHome API Version Requirement"
      "ESPHome devices must be running API version 1.9 or higher."
      "medium" "https://www.home-assistant.io/blog/2024/08/01/release-20248/",
    mkChange "homekit_2024_7" "2024.7.0" "homekit"
      "HomeKit Bridge Configuration Changes"
      "HomeKit bridge configuration format has changed. Manual reconfiguration required."
      "high" "https://www.home-assistant.io/blog/2024/07/01/release-20247/",
    mkChange "template_2024_6" "2024.6.0" "template"
      "Template Sensor Syntax Update"
      "Template sensors now require explicit state_class definition."
      "low" "https://www.home-assistant.io/blog/2024/06/01/release-20246/",
    mkChange "automation_2024_5" "2024.5.0" "automation"
      "Automation Trigger ID Requirement"
      "Automation triggers now require unique IDs for proper tracking."
      "low" "https://www.home-assistant.io/blog/2024/05/01/release-20245/",
    mkChange "shelly_2024_4" "2024.4.0" "shelly"
      "Shelly Integration Rewrite"
      "Shelly integration has been completely rewritten. Devices need to be re-added."
      "high" "https://www.home-assistant.io/blog/2024/04/01/release-20244/",
    mkChange "sensor_2024_3" "2024.3.0" "sensor"
      "Sensor Platform Deprecation"
      "Legacy sensor platform configuration is deprecated. Use modern format."
      "medium" "https://www.home-assistant.io/blog/2024/03/01/release-20243/" ]

/-- `BreakingChangesDB._parse_version`: byte-for-byte the same algorithm
as `BackupAnalyzer._parse_version` (the two files duplicate it). -/
def parse_version (version : String) : Option VersionParts :=
  match splitOnDot (version.data.dropWhile (· = 'v')) with
  | p0 :: p1 :: rest =>
    match pyInt? p0, pyInt? p1 with
    | some y, some m =>
      match rest with
      | [] => some ⟨y, m, 0⟩
      | p2 :: _ =>
        match pyInt? p2 with
        | some p => some ⟨y, m, p⟩
        | none => none
    | _, _ => none
  | _ => none

/-- One iteration of the merge loop of `update_database`: append the
fetched change unless some record of the accumulated list already
carries its `id` (Python `==` on possibly-absent ids, so two absent ids
are equal). -/
def merge_step (acc : List BreakingChange) (change : BreakingChange) :
    List BreakingChange :=
  if acc.any (fun c => c.id == change.id) then acc else acc ++ [change]

/-- The merge loop of `update_database` over the fetched records. -/
def merge_changes (existing new_changes : List BreakingChange) : List BreakingChange :=
  new_changes.foldl merge_step existing

/-- `BreakingChangesDB.update_database`, with the fetch result and the
current timestamp passed in: a falsy (empty) fetched list returns `False`
without touching the store; otherwise the fetched records are merged with
id-deduplication, `last_update` is rewritten and `True` is returned —
whether or not anything was actually appended. -/
def update_database (db : DbState) (new_changes : List BreakingChange)
    (now : String) : DbState × Bool :=
  if new_changes.isEmpty then (db, false)
  else ({ changes := merge_changes db.changes new_changes, last_update := some now },
        true)

/-- `BreakingChangesDB._is_version_in_range`: encode each triple as
`year*10000 + month*100 + patch` and test `from_val < check_val <= to_val`. -/
def is_version_in_range (check_version from_version to_version : VersionParts) : Bool :=
  let check_val := check_version.year * 10000 + check_version.month * 100 +
    check_version.patch
  let from_val := from_version.year * 10000 + from_version.month * 100 +
    from_version.patch
  let to_val := to_version.year * 10000 + to_version.month * 100 +
    to_version.patch
  decide (from_val < check_val ∧ check_val ≤ to_val)

/-- `BreakingChangesDB.find_breaking_changes`: parse both bounds (failure
→ empty result), then keep each stored record whose own version parses,
lies in the encoded range, and whose integration is one of the supplied
integrations or the sentinel `"all"`. -/
def find_breaking_changes (db : DbState) (from_version to_version : String)
    (integrations : List String) : List BreakingChange :=
  match parse_version from_version, parse_version to_version with
  | some from_parts, some to_parts =>
    db.changes.filter (fun change =>
      match parse_version (change.version.getD "") with
      | none => false
      | some change_parts =>
        is_version_in_range change_parts from_parts to_parts &&
          (integrations.contains (change.integration.getD "") ||
            change.integration.getD "" == "all"))
  | _, _ => []

/-- The `assess_risk` result dictionary; `change_count` is absent (`none`)
on the empty-input early return. -/
structure RiskAssessment where
  level : String
  score : Int
  message : String
  change_count : Option Nat
deriving DecidableEq

/-- Severity weight used by `assess_risk`:
`severity_weights.get(change.get('severity', 'medium'), 3)`. -/
def severity_weight (severity : Option String) : Int :=
  match severity.getD "medium" with
  | "low" => 1
  | "medium" => 3
  | "high" => 5
  | _ => 3

/-- `BreakingChangesDB.assess_risk`: empty input returns the fixed
low-risk dictionary without a `change_count` key; otherwise the score is
the summed severity weights, the level is cut at `score <= 2` and
`score <= 6`, and `change_count` is the input length. -/
def assess_risk (breaking_changes : List BreakingChange) : RiskAssessment :=
  if breaking_changes.isEmpty then
    { level := "low", score := 0, message := "No breaking changes detected",
      change_count := none }
  else
    let risk_score := breaking_changes.foldl
      (fun acc change => acc + severity_weight change.severity) 0
    let level :=
      if risk_score ≤ 2 then "low"
      else if risk_score ≤ 6 then "medium"
      else "high"
    let message :=
      if risk_score ≤ 2 then "Minor changes detected. Restoration should be safe."
      else if risk_score ≤ 6 then "Some breaking changes detected. Review before restoring."
      else "Significant breaking changes detected. Restoration may cause issues."
    { level := level, score := risk_score, message := message,
      change_count := some breaking_changes.length }

end BreakingChangesDB

/-- An addon entry of the manifest's `addons` list: either a JSON object
(whose `name`/`slug`/`version` keys may each be absent) or a bare value,
which the code turns into its string representation. -/
inductive ManifestAddon
  | dict (name slug version : Option String)
  | raw (repr : String)
deriving DecidableEq

/-- The manifest's optional `homeassistant_data` object with its two
alternative integration-list keys. -/
structure HaData where
  integrations : Option (List String)
  components : Option (List String)
deriving DecidableEq

/-- A parsed `manifest.json` document, restricted to the keys the
pipeline reads; every key may be absent.  (Only JSON objects are
modelled: a manifest that parses to a non-object or to a falsy document
is outside every claim.) -/
structure Manifest where
  homeassistant : Option String
  supervisor : Option String
  name : Option String
  date : Option String
  backup_type : Option String
  size : Option Int
  addons : Option (List ManifestAddon)
  folders : Option (List String)
  homeassistant_data : Option HaData
deriving DecidableEq

/-- A manifest with every key absent, for building concrete inputs. -/
def emptyManifest : Manifest :=
  ⟨none, none, none, none, none, none, none, none, none⟩

/-- What `tar.extractfile(member).read()` + `json.loads` can produce for
a tar member: a parsed JSON manifest, or a `JSONDecodeError`. -/
inductive EntryContent
  | validJson (m : Manifest)
  | malformedJson
deriving DecidableEq

/-- A tar member: its path name, and its content when `extractfile`
returns a stream (`none` models `extractfile` returning `None`, e.g. for
a directory member, upon which the scan loop continues). -/
structure TarMember where
  name : String
  content : Option EntryContent
deriving DecidableEq

/-- The backup byte stream as seen through `tarfile.open`: either the
open itself raises `TarError`, or it yields the member list in order. -/
inductive Archive
  | corrupt
  | entries (members : List TarMember)
deriving DecidableEq

/-- Python `s.endswith(suffix)` over character lists. -/
def strEndsWith (s suffix : String) : Bool :=
  suffix.data.isSuffixOf s.data

/-- Code-point lexicographic order on character lists, the order Python
string comparison uses. -/
def charListLe : List Char → List Char → Bool
  | [], _ => true
  | _ :: _, [] => false
  | a :: as, b :: bs =>
    if a.toNat < b.toNat then true
    else if b.toNat < a.toNat then false
    else charListLe as bs

/-- Python string `<=`: code-point lexicographic comparison. -/
def strLe (a b : String) : Bool :=
  charListLe a.data b.data

/-- Insertion of a string into a sorted list. -/
def insertStr (x : String) : List String → List String
  | [] => [x]
  | y :: ys => if strLe x y then x :: y :: ys else y :: insertStr x ys

/-- Insertion sort on strings (Python `sorted` restricted to the ASCII
strings the pipeline produces, where the orders agree). -/
def sortStrings : List String → List String
  | [] => []
  | x :: xs => insertStr x (sortStrings xs)

/-- Python `sorted(list(set(l)))`: the distinct elements in sorted order. -/
def sortedSet (l : List String) : List String :=
  sortStrings l.dedup

namespace BackupAnalyzer

/-- The scan loop of `_extract_manifest` over the member list: the first
member whose name ends with (or equals) `manifest.json` and whose
`extractfile` yields a stream decides the outcome — its parsed manifest,
or `None` when `json.loads` raises (the `JSONDecodeError` is caught by
the surrounding handler). -/
def scan_members : List TarMember → Option Manifest
  | [] => none
  | member :: rest =>
    if strEndsWith member.name "manifest.json" || member.name == "manifest.json" then
      match member.content with
      | some (.validJson m) => some m
      | some .malformedJson => none
      | none => scan_members rest
    else scan_members rest

/-- `BackupAnalyzer._extract_manifest`: a `TarError` on open and a
missing or unreadable manifest all collapse to `None`. -/
def extract_manifest : Archive → Option Manifest
  | .corrupt => none
  | .entries members => scan_members members

/-- An addon record built by `_parse_manifest`: dict addons get all three
keys (each defaulted to `'unknown'`), bare addons get only `slug`. -/
structure ParsedAddon where
  name : Option String
  slug : Option String
  version : Option String
deriving DecidableEq

/-- The per-addon step of `_parse_manifest`. -/
def parse_addon : ManifestAddon → ParsedAddon
  | .dict name slug version =>
      ⟨some (name.getD "unknown"), some (slug.getD "unknown"),
       some (version.getD "unknown")⟩
  | .raw repr => ⟨none, some repr, none⟩

/-- The addon→integration lookup table of `_extract_integrations`. -/
def addon_integration_map (slug : String) : Option String :=
  match slug with
  | "mosquitto" => some "mqtt"
  | "mariadb" => some "mysql"
  | "influxdb" => some "influxdb"
  | "grafana" => some "grafana"
  | "node-red" => some "node_red"
  | "esphome" => some "esphome"
  | "zigbee2mqtt" => some "mqtt"
  | _ => none

/-- The slug the inference loop reads from an addon entry:
`addon.get('slug', '')` for dicts, `str(addon)` otherwise. -/
def addon_slug : ManifestAddon → String
  | .dict _ slug _ => slug.getD ""
  | .raw repr => repr

/-- `BackupAnalyzer._extract_integrations`: take the explicit
`homeassistant_data.integrations` (or `.components`) list when present;
when that leaves an empty (falsy) list and the manifest has an `addons`
key, infer integrations through the lookup table; append each missing
core integration; return the sorted deduplicated result. -/
def extract_integrations (manifest : Manifest) : List String :=
  let explicit : List String :=
    match manifest.homeassistant_data with
    | some ha =>
      match ha.integrations with
      | some l => l
      | none => match ha.components with
                | some l => l
                | none => []
    | none => []
  let inferred : List String :=
    if explicit.isEmpty ∧ manifest.addons.isSome then
      explicit ++ ((manifest.addons.getD []).filterMap
        (fun addon => addon_integration_map (addon_slug addon)))
    else explicit
  let with_core : List String :=
    ["homeassistant", "default_config", "system_health"].foldl
      (fun acc core => if acc.contains core then acc else acc ++ [core]) inferred
  sortedSet with_core

/-- The analysis dictionary assembled by `_parse_manifest`. -/
structure ParsedManifest where
  homeassistant_version : String
  supervisor_version : String
  backup_name : String
  backup_date : String
  backup_type : String
  backup_size : Int
  addons : List ParsedAddon
  folders : List String
  integrations : List String
  addon_count : Nat
  integration_count : Nat
deriving DecidableEq

/-- `BackupAnalyzer._parse_manifest`: read each manifest key with its
default, normalise the addon list, extract the integrations, and attach
the two derived counts. -/
def parse_manifest (manifest : Manifest) : ParsedManifest :=
  let addon_list := (manifest.addons.getD []).map parse_addon
  let integrations := extract_integrations manifest
  { homeassistant_version := manifest.homeassistant.getD "unknown",
    supervisor_version := manifest.supervisor.getD "unknown",
    backup_name := manifest.name.getD "Unknown",
    backup_date := manifest.date.getD "unknown",
    backup_type := manifest.backup_type.getD "unknown",
    backup_size := manifest.size.getD 0,
    addons := addon_list,
    folders := manifest.folders.getD [],
    integrations := integrations,
    addon_count := addon_list.length,
    integration_count := integrations.length }

/-- Outcome of `analyze_backup`: the success dictionary with the parsed
analysis, or `{'success': False, 'error': ...}`. -/
inductive AnalysisResult
  | ok (analysis : ParsedManifest)
  | failure (error : String)
deriving DecidableEq

/-- `BackupAnalyzer.analyze_backup`: a `None` from `_extract_manifest`
(corrupt tar, no manifest entry, or malformed manifest JSON alike)
becomes the one failure dictionary; otherwise the parsed analysis is
returned with `success: True`. -/
def analyze_backup (backup_data : Archive) : AnalysisResult :=
  match extract_manifest backup_data with
  | none => .failure "Could not extract manifest from backup file"
  | some manifest => .ok (parse_manifest manifest)

end BackupAnalyzer

namespace BackupManager

/-- An entry of the report's `issues`/`warnings` lists; version entries
carry only `type`/`severity`/`message`, breaking-change entries also
carry the record's integration, description and url. -/
structure IssueRecord where
  type : String
  severity : String
  message : String
  integration : Option String
  description : Option String
  url : Option String
deriving DecidableEq

/-- The `backup_info` block of the report.  The human-readable
`_format_size` string (floating-point display formatting) is not
modelled; the block keeps the raw byte count it formats. -/
structure BackupInfoBlock where
  name : String
  date : String
  backup_type : String
  size_bytes : Int
deriving DecidableEq

/-- The `version_info` block of the report. -/
structure VersionInfoBlock where
  backup_version : String
  current_version : String
  compatible : Bool
  version_diff : Option String
  months_difference : Int
deriving DecidableEq

/-- The `integrations` block: full count, truncated display list. -/
structure IntegrationsBlock where
  count : Nat
  list : List String
deriving DecidableEq

/-- The `addons` block: full count, truncated list of addon names
(`addon.get('name')`, so `none` for a slug-only addon entry). -/
structure AddonsBlock where
  count : Nat
  list : List (Option String)
deriving DecidableEq

/-- The `breaking_changes` block of the report. -/
structure BreakingChangesBlock where
  count : Nat
  risk_score : Int
  risk_message : String
  changes : List BreakingChange
deriving DecidableEq

/-- The dictionary returned by `validate_backup`.  The error-path
dictionary carries only `backup_id`, `status`, `risk_level`, `error` and
`timestamp`; every key it lacks is `none` here. -/
structure ValidationReport where
  backup_id : String
  status : String
  risk_level : String
  error : Option String
  backup_info : Option BackupInfoBlock
  version_info : Option VersionInfoBlock
  integrations : Option IntegrationsBlock
  addons : Option AddonsBlock
  breaking_changes : Option BreakingChangesBlock
  issues : Option (List IssueRecord)
  warnings : Option (List IssueRecord)
  recommendation : Option String
  timestamp : String
deriving DecidableEq

/-- The error dictionary produced by the `except` handler and by the
failed-analysis branch of `validate_backup`. -/
def error_report (backup_id error now : String) : ValidationReport :=
  { backup_id := backup_id, status := "error", risk_level := "unknown",
    error := some error, backup_info := none, version_info := none,
    integrations := none, addons := none, breaking_changes := none,
    issues := none, warnings := none, recommendation := none, timestamp := now }

/-- Step 7's version block: only an incompatible comparison contributes —
`version_diff == 'newer'` yields the high issue, otherwise a
`total_months_diff` above 6 yields the medium warning.  (A comparison
judged compatible contributes nothing, whatever its month distance.) -/
def version_issues_warnings (vc : BackupAnalyzer.VersionComparison)
    (backup_version current_version : String) :
    List IssueRecord × List IssueRecord :=
  if vc.compatible then ([], [])
  else if vc.version_diff == some "newer" then
    ([⟨"version", "high",
       "Backup is from a newer version (" ++ backup_version ++ ") than current (" ++
         current_version ++ "). Restoration not recommended.",
       none, none, none⟩], [])
  else if vc.total_months_diff.getD 0 > 6 then
    ([], [⟨"version", "medium",
          "Backup is " ++ toString (vc.total_months_diff.getD 0) ++
            " months old. Significant changes may have occurred.",
          none, none, none⟩])
  else ([], [])

/-- The issue/warning entry built from one matched breaking change. -/
def change_record (severity : String) (change : BreakingChange) : IssueRecord :=
  ⟨"breaking_change", severity, change.title.getD "",
   change.integration, change.description, change.url⟩

/-- One iteration of step 7's breaking-change loop: a `'high'` severity
(`change.get('severity', 'medium')`) appends an issue, anything else
appends a warning with that severity. -/
def bc_step (acc : List IssueRecord × List IssueRecord) (change : BreakingChange) :
    List IssueRecord × List IssueRecord :=
  let severity := change.severity.getD "medium"
  if severity == "high" then (acc.1 ++ [change_record severity change], acc.2)
  else (acc.1, acc.2 ++ [change_record severity change])

/-- Step 7's breaking-change loop over the matched records. -/
def bc_issues_warnings (breaking_changes : List BreakingChange) :
    List IssueRecord × List IssueRecord :=
  breaking_changes.foldl bc_step ([], [])

/-- Step 8: derive (`status`, `risk_level`) from the issue/warning lists
and the assessed risk level. -/
def overall_status (issues warnings : List IssueRecord)
    (risk : BreakingChangesDB.RiskAssessment) : String × String :=
  if ¬ issues.isEmpty then ("incompatible", "high")
  else if risk.level == "high" then ("compatible_with_warnings", "high")
  else if ¬ warnings.isEmpty || risk.level == "medium" then
    ("compatible_with_warnings", "medium")
  else ("compatible", "low")

/-- `BackupManager._generate_recommendation` (the `issues`/`warnings`
arguments are accepted and ignored, as in the source). -/
def generate_recommendation (status risk_level : String)
    (_issues _warnings : List IssueRecord) : String :=
  if status == "incompatible" then
    "⚠️ Restoration not recommended. Critical compatibility issues detected. Please review the issues carefully before proceeding."
  else if risk_level == "high" then
    "⚠️ Proceed with caution. Significant breaking changes detected that may affect your system. Review all warnings before restoring."
  else if risk_level == "medium" then
    "ℹ️ Restoration should be safe, but some minor issues were detected. Review the warnings and be prepared to reconfigure affected integrations."
  else
    "✅ Backup appears safe to restore. No significant compatibility issues detected."

/-- Steps 4–7 and the report assembly of `validate_backup`, given a
successful analysis and the current system version. -/
def build_report (backup_id : String) (analysis : BackupAnalyzer.ParsedManifest)
    (current_version : String) (db : BreakingChangesDB.DbState)
    (now : String) : ValidationReport :=
  let backup_version := analysis.homeassistant_version
  let version_comparison := BackupAnalyzer.compare_versions backup_version current_version
  let integrations := analysis.integrations
  let breaking_changes :=
    BreakingChangesDB.find_breaking_changes db backup_version current_version integrations
  let risk_assessment := BreakingChangesDB.assess_risk breaking_changes
  let v_pair := version_issues_warnings version_comparison backup_version current_version
  let bc_pair := bc_issues_warnings breaking_changes
  let issues := v_pair.1 ++ bc_pair.1
  let warnings := v_pair.2 ++ bc_pair.2
  let st := overall_status issues warnings risk_assessment
  { backup_id := backup_id, status := st.1, risk_level := st.2, error := none,
    backup_info := some ⟨analysis.backup_name, analysis.backup_date,
      analysis.backup_type, analysis.backup_size⟩,
    version_info := some ⟨backup_version, current_version,
      version_comparison.compatible, version_comparison.version_diff,
      version_comparison.total_months_diff.getD 0⟩,
    integrations := some ⟨analysis.integration_count, integrations.take 20⟩,
    addons := some ⟨analysis.addon_count, (analysis.addons.map (·.name)).take 10⟩,
    breaking_changes := some ⟨breaking_changes.length, risk_assessment.score,
      risk_assessment.message, breaking_changes⟩,
    issues := some issues, warnings := some warnings,
    recommendation := some (generate_recommendation st.1 st.2 issues warnings),
    timestamp := now }

/-- `BackupManager.validate_backup`, with the two collaborator calls
passed in as `Except` values (`Except.error` models the call raising):
a raised download or version fetch lands in the top-level handler and
becomes the error report; a failed analysis returns the error report of
its message; otherwise the full report is assembled.  The function is
total: no input propagates a fault. -/
def validate_backup (backup_id : String) (download : Except String Archive)
    (ha_version : Except String (Option String))
    (db : BreakingChangesDB.DbState) (now : String) : ValidationReport :=
  match download with
  | .error e => error_report backup_id e now
  | .ok backup_data =>
    match BackupAnalyzer.analyze_backup backup_data with
    | .failure err => error_report backup_id err now
    | .ok analysis =>
      match ha_version with
      | .error e => error_report backup_id e now
      | .ok v => build_report backup_id analysis (v.getD "Unknown") db now

end BackupManager

/-!
Concrete inputs shared by the theorems below.
-/

/-- A store holding exactly the curated dataset, as after the first
`update_database` call on a fresh (empty) store. -/
def curated_db : BreakingChangesDB.DbState :=
  ⟨BreakingChangesDB.get_curated_breaking_changes, none⟩

/-- The curated mqtt record at version `2024.10.0`. -/
def mqtt_change : BreakingChange :=
  mkChange "mqtt_2024_10" "2024.10.0" "mqtt"
    "MQTT Discovery Topic Changes"
    "MQTT discovery topics have been reorganized. Devices may need to be reconfigured."
    "medium" "https://www.home-assistant.io/blog/2024/10/01/release-202410/"

/-- The end-to-end manifest: `homeassistant: "2024.5.0"`,
`addons: [{slug: "zigbee2mqtt"}]`. -/
def e2e_manifest : Manifest :=
  { emptyManifest with
      homeassistant := some "2024.5.0",
      addons := some [.dict none (some "zigbee2mqtt") none] }

/-- A backup archive whose only member is the end-to-end manifest. -/
def e2e_archive : Archive :=
  .entries [⟨"manifest.json", some (.validJson e2e_manifest)⟩]

/-- The end-to-end validation run: current system version `2024.10.1`,
curated dataset loaded. -/
def e2e_report : BackupManager.ValidationReport :=
  BackupManager.validate_backup "backup_1" (.ok e2e_archive)
    (.ok (some "2024.10.1")) curated_db "2024-10-12T00:00:00"

/-- An archive that opens fine but has no `manifest.json` member. -/
def no_manifest_archive : Archive :=
  .entries [⟨"homeassistant.tar.gz", some (.validJson emptyManifest)⟩]

/-- An archive whose `manifest.json` member holds malformed JSON. -/
def bad_json_archive : Archive :=
  .entries [⟨"manifest.json", some .malformedJson⟩]

/-!
C7 — version parsing and the `v` prefix.
-/

/-- **C7, counterexample.**  The claim says a string beginning with two
`v` characters is a parse failure; but `lstrip('v')` removes every
leading `v`, so `"vv2024.5"` parses (in both copies of `_parse_version`)
to year 2024, month 5, patch 0. -/
theorem c7_counterexample :
    BackupAnalyzer.parse_version "vv2024.5" = some ⟨2024, 5, 0⟩ ∧
    BreakingChangesDB.parse_version "vv2024.5" = some ⟨2024, 5, 0⟩ := by
  constructor <;> rfl

/-- **C7, amended.**  `_parse_version` strips every leading `v` (not
exactly one): prefixing `v` never changes the result, the two copies of
the parser agree on every input, any input whose stripped form has fewer
than two dot-segments fails, and in particular the two-`v` string
`"vv2024.5"` parses successfully while `"2024"` fails. -/
theorem c7_amended :
    (∀ s : String, BackupAnalyzer.parse_version ("v" ++ s) = BackupAnalyzer.parse_version s) ∧
    (∀ s : String, BreakingChangesDB.parse_version s = BackupAnalyzer.parse_version s) ∧
    (∀ s : String, (splitOnDot (s.data.dropWhile (· = 'v'))).length < 2 →
      BackupAnalyzer.parse_version s = none) ∧
    BackupAnalyzer.parse_version "vv2024.5" = some ⟨2024, 5, 0⟩ ∧
    BackupAnalyzer.parse_version "2024" = none := by
  refine ⟨?_, ?_, ?_, rfl, rfl⟩
  · intro s
    show BackupAnalyzer.parse_version ⟨"v".data ++ s.data⟩ = _
    simp only [BackupAnalyzer.parse_version]
    norm_num [List.dropWhile]
  · intro s
    rfl
  · intro s h
    simp only [BackupAnalyzer.parse_version]
    cases hval : splitOnDot (s.data.dropWhile (· = 'v')) with
    | nil => rfl
    | cons p0 t =>
      cases t with
      | nil => rfl
      | cons p1 rest =>
        rw [hval] at h
        simp only [List.length_cons] at h
        omega

/-- **C7, witness** for the amended theorem at concrete inputs. -/
theorem c7_amended_witness :
    BackupAnalyzer.parse_version ("v" ++ "v2024.5") = BackupAnalyzer.parse_version "v2024.5" ∧
    BackupAnalyzer.parse_version "2024" = none :=
  ⟨c7_amended.1 "v2024.5", c7_amended.2.2.1 "2024" (by decide)⟩

/-!
C2 — distinguishability of the two manifest-extraction failures.
-/

/-- **C2, counterexample.**  The claim says the caller-visible failure
for "no manifest entry" differs from the one for "manifest present but
malformed"; but `_extract_manifest` returns `None` in both cases, so
`analyze_backup` returns the *identical* failure dictionary for an
archive with no `manifest.json` member and for one whose `manifest.json`
is malformed JSON. -/
theorem c2_counterexample :
    BackupAnalyzer.analyze_backup no_manifest_archive =
      BackupAnalyzer.analyze_backup bad_json_archive ∧
    BackupAnalyzer.analyze_backup no_manifest_archive =
      .failure "Could not extract manifest from backup file" := by
  constructor <;> rfl

/-- **C2, amended.**  Every failure of `analyze_backup` — corrupt tar,
missing `manifest.json`, or malformed manifest JSON alike — carries the
one error message `'Could not extract manifest from backup file'`, so
the two failure modes of the claim are not distinguishable by the
caller. -/
theorem c2_amended (a : Archive) (err : String)
    (h : BackupAnalyzer.analyze_backup a = .failure err) :
    err = "Could not extract manifest from backup file" := by
  unfold BackupAnalyzer.analyze_backup at h
  cases hm : BackupAnalyzer.extract_manifest a with
  | none => rw [hm] at h; exact ((BackupAnalyzer.AnalysisResult.failure.injEq _ _).mp h).symm
  | some m => rw [hm] at h; exact absurd h (by simp)

/-- **C2, witness** for the amended theorem at the missing-manifest
archive. -/
theorem c2_amended_witness :
    "Could not extract manifest from backup file" =
      "Could not extract manifest from backup file" :=
  c2_amended no_manifest_archive "Could not extract manifest from backup file" (by decide)

/-!
C4 / C5 — the store's update operation.
-/

/-- Any-witness survives one merge step. -/
lemma merge_step_any (p : BreakingChange → Bool) (acc : List BreakingChange)
    (c : BreakingChange) (h : acc.any p = true) :
    (BreakingChangesDB.merge_step acc c).any p = true := by
  unfold BreakingChangesDB.merge_step
  split
  · exact h
  · simp [List.any_append, h]

/-- Any-witness survives the whole merge fold. -/
lemma merge_foldl_any (p : BreakingChange → Bool) :
    ∀ (l : List BreakingChange) (acc : List BreakingChange), acc.any p = true →
      (l.foldl BreakingChangesDB.merge_step acc).any p = true := by
  intro l
  induction l with
  | nil => intro acc h; exact h
  | cons c rest ih =>
    intro acc h
    exact ih (BreakingChangesDB.merge_step acc c) (merge_step_any p acc c h)

/-- After a merge, every fetched record's id is present in the store. -/
lemma merge_changes_mem_any :
    ∀ (new_changes : List BreakingChange) (existing : List BreakingChange)
      (c : BreakingChange), c ∈ new_changes →
      (BreakingChangesDB.merge_changes existing new_changes).any
        (fun e => e.id == c.id) = true := by
  intro new_changes
  induction new_changes with
  | nil => intro existing c hc; cases hc
  | cons c0 rest ih =>
    intro existing c hc
    rcases List.mem_cons.mp hc with rfl | hmem
    · show (rest.foldl BreakingChangesDB.merge_step
        (BreakingChangesDB.merge_step existing c)).any (fun e => e.id == c.id) = true
      apply merge_foldl_any
      unfold BreakingChangesDB.merge_step
      split
      · assumption
      · simp [List.any_append]
    · exact ih (BreakingChangesDB.merge_step existing c0) c hmem

/-- A merge in which every fetched record's id is already present
appends nothing. -/
lemma merge_changes_all_present :
    ∀ (new_changes : List BreakingChange) (existing : List BreakingChange),
      (∀ c ∈ new_changes, existing.any (fun e => e.id == c.id) = true) →
      BreakingChangesDB.merge_changes existing new_changes = existing := by
  intro new_changes
  induction new_changes with
  | nil => intro existing _; rfl
  | cons c0 rest ih =>
    intro existing h
    have h0 : BreakingChangesDB.merge_step existing c0 = existing := by
      unfold BreakingChangesDB.merge_step
      rw [if_pos (h c0 (List.mem_cons_self c0 rest))]
    show rest.foldl BreakingChangesDB.merge_step
      (BreakingChangesDB.merge_step existing c0) = existing
    rw [h0]
    exact ih existing (fun c hc => h c (List.mem_cons_of_mem c0 hc))

/-- Id-uniqueness of the stored record collection (no two records answer
`True` to Python's `==` on their ids). -/
def unique_ids (l : List BreakingChange) : Prop :=
  l.Pairwise (fun a b => (a.id == b.id) = false)

/-- The merge loop preserves id-uniqueness: a record is appended only
when no accumulated record carries its id. -/
lemma merge_changes_unique :
    ∀ (new_changes : List BreakingChange) (existing : List BreakingChange),
      unique_ids existing →
      unique_ids (BreakingChangesDB.merge_changes existing new_changes) := by
  intro new_changes
  induction new_changes with
  | nil => intro existing h; exact h
  | cons c0 rest ih =>
    intro existing h
    show unique_ids (rest.foldl BreakingChangesDB.merge_step
      (BreakingChangesDB.merge_step existing c0))
    apply ih
    unfold BreakingChangesDB.merge_step
    split
    · exact h
    · rename_i hany
      have hfalse : existing.any (fun c => c.id == c0.id) = false := by
        cases hb : existing.any (fun c => c.id == c0.id)
        · rfl
        · exact absurd hb hany
      rw [List.any_eq_false] at hfalse
      unfold unique_ids at h ⊢
      rw [List.pairwise_append]
      refine ⟨h, List.pairwise_singleton _ _, ?_⟩
      intro a ha b hb
      rw [List.mem_singleton] at hb
      subst hb
      have := hfalse a ha
      simpa using this

/-- **C4, counterexample.**  The claim says an update in which every
fetched record's id is already present returns `False`; but
`update_database` returns `True` whenever the fetched list is non-empty,
even though nothing was appended: here the single fetched record's id
`"a"` is already stored, the record list is unchanged, yet the result is
`True`. -/
theorem c4_counterexample :
    (BreakingChangesDB.update_database
        ⟨[mkChange "a" "2024.1.0" "mqtt" "t" "d" "low" "u"], none⟩
        [mkChange "a" "2024.2.0" "zha" "t2" "d2" "high" "u2"] "now").2 = true ∧
    (BreakingChangesDB.update_database
        ⟨[mkChange "a" "2024.1.0" "mqtt" "t" "d" "low" "u"], none⟩
        [mkChange "a" "2024.2.0" "zha" "t2" "d2" "high" "u2"] "now").1.changes =
      [mkChange "a" "2024.1.0" "mqtt" "t" "d" "low" "u"] := by
  constructor <;> rfl

/-- **C4, amended.**  `update_database` returns `True` iff the fetched
record list is non-empty — irrespective of whether any record was
appended; when every fetched id is already present the store is left
unchanged but the result is still `True` for a non-empty fetch. -/
theorem c4_amended (db : BreakingChangesDB.DbState)
    (new_changes : List BreakingChange) (now : String) :
    ((BreakingChangesDB.update_database db new_changes now).2 = !new_changes.isEmpty) ∧
    ((∀ c ∈ new_changes, db.changes.any (fun e => e.id == c.id) = true) →
      (BreakingChangesDB.update_database db new_changes now).1.changes = db.changes) := by
  constructor
  · unfold BreakingChangesDB.update_database
    split <;> simp_all
  · intro h
    unfold BreakingChangesDB.update_database
    split
    · rfl
    · exact merge_changes_all_present new_changes db.changes h

/-- **C4, witness** for the amended theorem: a one-record store updated
with a fetch carrying only the already-present id. -/
theorem c4_amended_witness :
    (BreakingChangesDB.update_database
        ⟨[mkChange "b" "2024.1.0" "mqtt" "t" "d" "low" "u"], none⟩
        [mkChange "b" "2024.3.0" "zha" "t2" "d2" "high" "u2"] "later").1.changes =
      [mkChange "b" "2024.1.0" "mqtt" "t" "d" "low" "u"] :=
  (c4_amended ⟨[mkChange "b" "2024.1.0" "mqtt" "t" "d" "low" "u"], none⟩
    [mkChange "b" "2024.3.0" "zha" "t2" "d2" "high" "u2"] "later").2 (by decide)

/-- **C5 (confirmed).**  Updating twice with the same fetched record set
leaves the record collection after the second call equal to (hence of
the same size as) the collection after the first call, and the update
preserves id-uniqueness of the store. -/
theorem c5_update_idempotent (db : BreakingChangesDB.DbState)
    (new_changes : List BreakingChange) (now now' : String) :
    ((BreakingChangesDB.update_database
        (BreakingChangesDB.update_database db new_changes now).1 new_changes now').1.changes
      = (BreakingChangesDB.update_database db new_changes now).1.changes) ∧
    ((BreakingChangesDB.update_database
        (BreakingChangesDB.update_database db new_changes now).1 new_changes now').1.changes.length
      = (BreakingChangesDB.update_database db new_changes now).1.changes.length) ∧
    (unique_ids db.changes →
      unique_ids (BreakingChangesDB.update_database db new_changes now).1.changes) := by
  have main : (BreakingChangesDB.update_database
      (BreakingChangesDB.update_database db new_changes now).1 new_changes now').1.changes
      = (BreakingChangesDB.update_database db new_changes now).1.changes := by
    unfold BreakingChangesDB.update_database
    split
    · rfl
    · show BreakingChangesDB.merge_changes
        (BreakingChangesDB.merge_changes db.changes new_changes) new_changes = _
      exact merge_changes_all_present new_changes _
        (fun c hc => merge_changes_mem_any new_changes db.changes c hc)
  refine ⟨main, by rw [main], ?_⟩
  intro h
  unfold BreakingChangesDB.update_database
  split
  · exact h
  · exact merge_changes_unique new_changes db.changes h

/-- **C5, witness** for the uniqueness hypothesis at a concrete store. -/
theorem c5_update_idempotent_witness :
    unique_ids (BreakingChangesDB.update_database ⟨[], none⟩
      [mkChange "c" "2024.4.0" "shelly" "t" "d" "high" "u"] "t0").1.changes :=
  (c5_update_idempotent ⟨[], none⟩
    [mkChange "c" "2024.4.0" "shelly" "t" "d" "high" "u"] "t0" "t1").2.2
    List.Pairwise.nil

/-!
C6 — the version-range test against lexicographic order.
-/

/-- Modelled from the spec's words: strict lexicographic order on
`(year, month, patch)`, the comparison the claim says the in-range test
implements. -/
def version_lex_lt (a b : VersionParts) : Prop :=
  a.year < b.year ∨
    (a.year = b.year ∧ (a.month < b.month ∨ (a.month = b.month ∧ a.patch < b.patch)))

/-- Modelled from the spec's words: at-or-before under the lexicographic
comparison. -/
def version_lex_le (a b : VersionParts) : Prop :=
  a.year < b.year ∨
    (a.year = b.year ∧ (a.month < b.month ∨ (a.month = b.month ∧ a.patch ≤ b.patch)))

instance (a b : VersionParts) : Decidable (version_lex_lt a b) := by
  unfold version_lex_lt; infer_instance

instance (a b : VersionParts) : Decidable (version_lex_le a b) := by
  unfold version_lex_le; infer_instance

/-- A hypothetical curated store extended with an extra mqtt record at
the exclusive lower boundary version `2024.3.0`. -/
def boundary_db : BreakingChangesDB.DbState :=
  ⟨BreakingChangesDB.get_curated_breaking_changes ++
    [mkChange "mqtt_2024_3" "2024.3.0" "mqtt" "boundary" "boundary record" "low" "u"],
   none⟩

/-- **C6, counterexample.**  The claim's equivalence with lexicographic
order fails on non-negative triples once a component reaches 100: the
triple (0,1,0) lies strictly between (0,0,100) and (0,2,0)
lexicographically, yet `_is_version_in_range`'s
`year*10000 + month*100 + patch` encoding collapses (0,0,100) and
(0,1,0) to the same integer and answers `False`. -/
theorem c6_counterexample :
    BreakingChangesDB.is_version_in_range ⟨0, 1, 0⟩ ⟨0, 0, 100⟩ ⟨0, 2, 0⟩ = false ∧
    version_lex_lt ⟨0, 0, 100⟩ ⟨0, 1, 0⟩ ∧
    version_lex_le ⟨0, 1, 0⟩ ⟨0, 2, 0⟩ := by
  refine ⟨rfl, ?_, ?_⟩ <;> decide

/-- **C6, amended.**  The in-range test agrees with the half-open
lexicographic interval `from < v <= to` whenever every month and patch
component is in `[0, 100)` — which holds for every real platform version
— and `find_breaking_changes` from `2024.3` to `2024.10` for `["mqtt"]`
over the curated dataset (even when extended with an mqtt record at the
boundary version `2024.3.0`) returns exactly the mqtt record at
`2024.10.0`. -/
theorem c6_amended :
    (∀ cv fv tv : VersionParts,
      0 ≤ cv.month → cv.month < 100 → 0 ≤ cv.patch → cv.patch < 100 →
      0 ≤ fv.month → fv.month < 100 → 0 ≤ fv.patch → fv.patch < 100 →
      0 ≤ tv.month → tv.month < 100 → 0 ≤ tv.patch → tv.patch < 100 →
      (BreakingChangesDB.is_version_in_range cv fv tv = true ↔
        (version_lex_lt fv cv ∧ version_lex_le cv tv))) ∧
    BreakingChangesDB.find_breaking_changes curated_db "2024.3" "2024.10" ["mqtt"]
      = [mqtt_change] ∧
    BreakingChangesDB.find_breaking_changes boundary_db "2024.3" "2024.10" ["mqtt"]
      = [mqtt_change] := by
  refine ⟨?_, by rfl, by rfl⟩
  intro cv fv tv
  obtain ⟨cy, cm, cp⟩ := cv
  obtain ⟨fy, fm, fp⟩ := fv
  obtain ⟨ty, tm, tp⟩ := tv
  intro h1 h2 h3 h4 h5 h6 h7 h8 h9 h10 h11 h12
  simp only [BreakingChangesDB.is_version_in_range, version_lex_lt, version_lex_le,
    decide_eq_true_eq]
  dsimp only at h1 h2 h3 h4 h5 h6 h7 h8 h9 h10 h11 h12
  omega

/-- **C6, witness** for the amended equivalence at the concrete triples
of the end-to-end scenario: (2024,10,0) lies in the interval
((2024,3,0), (2024,10,0)]. -/
theorem c6_amended_witness :
    BreakingChangesDB.is_version_in_range ⟨2024, 10, 0⟩ ⟨2024, 3, 0⟩ ⟨2024, 10, 0⟩ = true ↔
      (version_lex_lt ⟨2024, 3, 0⟩ ⟨2024, 10, 0⟩ ∧
        version_lex_le ⟨2024, 10, 0⟩ ⟨2024, 10, 0⟩) :=
  c6_amended.1 ⟨2024, 10, 0⟩ ⟨2024, 3, 0⟩ ⟨2024, 10, 0⟩
    (by decide) (by decide) (by decide) (by decide) (by decide) (by decide)
    (by decide) (by decide) (by decide) (by decide) (by decide) (by decide)

/-!
C8 — risk assessment.
-/

/-- The risk-score loop accumulates exactly the summed severity weights. -/
lemma assess_fold_sum :
    ∀ (l : List BreakingChange) (init : Int),
      l.foldl (fun acc change => acc + BreakingChangesDB.severity_weight change.severity) init
        = init + (l.map (fun change => BreakingChangesDB.severity_weight change.severity)).sum := by
  intro l
  induction l with
  | nil => intro init; simp
  | cons c t ih =>
    intro init
    rw [List.foldl_cons, ih, List.map_cons, List.sum_cons]
    ring

/-- **C8, counterexample.**  The claim says the result carries a
`change_count` field equal to the number of input records even for the
empty list; but the empty-input early return of `assess_risk` has no
`change_count` key at all. -/
theorem c8_counterexample :
    (BreakingChangesDB.assess_risk []).change_count = none ∧
    (BreakingChangesDB.assess_risk []).level = "low" ∧
    (BreakingChangesDB.assess_risk []).score = 0 :=
  ⟨rfl, rfl, rfl⟩

/-- **C8, amended.**  On the empty list `assess_risk` returns the fixed
low-risk dictionary *without* a `change_count` field; on every non-empty
list the score is the sum of per-record severity weights (low 1,
medium 3, high 5, anything else 3), the level follows the thresholds
`score <= 2` low / `score <= 6` medium / else high, and `change_count`
equals the number of input records. -/
theorem c8_amended (l : List BreakingChange) :
    (l = [] → BreakingChangesDB.assess_risk l =
      ⟨"low", 0, "No breaking changes detected", none⟩) ∧
    (l ≠ [] →
      (BreakingChangesDB.assess_risk l).score =
        (l.map (fun change => BreakingChangesDB.severity_weight change.severity)).sum ∧
      (BreakingChangesDB.assess_risk l).level =
        (if (l.map (fun change => BreakingChangesDB.severity_weight change.severity)).sum ≤ 2
         then "low"
         else if (l.map (fun change => BreakingChangesDB.severity_weight change.severity)).sum ≤ 6
         then "medium" else "high") ∧
      (BreakingChangesDB.assess_risk l).change_count = some l.length) := by
  constructor
  · rintro rfl; rfl
  · intro h
    have hne : l.isEmpty = false := by
      cases l with
      | nil => exact absurd rfl h
      | cons c t => rfl
    unfold BreakingChangesDB.assess_risk
    rw [if_neg (by simp [hne])]
    dsimp only
    rw [assess_fold_sum l 0, zero_add]
    exact ⟨rfl, rfl, rfl⟩

/-- **C8, witness** for the amended theorem: the empty list, and the
one-high-plus-one-medium list of the spec's example (score 8, level
high, count 2). -/
theorem c8_amended_witness :
    BreakingChangesDB.assess_risk [] =
      ⟨"low", 0, "No breaking changes detected", none⟩ ∧
    (BreakingChangesDB.assess_risk
        [mkChange "h1" "2024.9.0" "zha" "t" "d" "high" "u",
         mkChange "m1" "2024.10.0" "mqtt" "t" "d" "medium" "u"]).change_count = some 2 :=
  ⟨(c8_amended []).1 rfl,
   ((c8_amended [mkChange "h1" "2024.9.0" "zha" "t" "d" "high" "u",
       mkChange "m1" "2024.10.0" "mqtt" "t" "d" "medium" "u"]).2 (by decide)).2.2⟩

/-!
C3 — the old-backup version warning.
-/

/-- A manifest whose backup version `2024.1.0` is *compatible* with the
current system (`older`) but more than 6 months behind it. -/
def old_compat_manifest : Manifest :=
  { emptyManifest with homeassistant := some "2024.1.0" }

/-- The validation run over `old_compat_manifest` against current
version `2024.10.1`. -/
def old_compat_report : BackupManager.ValidationReport :=
  BackupManager.validate_backup "backup_3"
    (.ok (.entries [⟨"manifest.json", some (.validJson old_compat_manifest)⟩]))
    (.ok (some "2024.10.1")) curated_db "2024-10-12T00:00:00"

/-- **C3, counterexample.**  The claim says a call with
`total_months_diff > 6` and a non-`newer` diff always gets one
`{type: version, severity: medium}` warning, compatible or not; but the
warning branch sits under `if not compatible`, so this compatible run —
`2024.1.0` against `2024.10.1`, 9 months apart, diff `older` — produces
an empty warning list. -/
theorem c3_counterexample :
    (BackupAnalyzer.compare_versions "2024.1.0" "2024.10.1").total_months_diff = some 9 ∧
    (BackupAnalyzer.compare_versions "2024.1.0" "2024.10.1").version_diff = some "older" ∧
    (BackupAnalyzer.compare_versions "2024.1.0" "2024.10.1").compatible = true ∧
    old_compat_report.warnings = some [] :=
  ⟨rfl, rfl, rfl, by decide⟩

/-- No breaking-change entry of step 7 counts as a version entry. -/
lemma bc_fold_warnings_countP (p : BackupManager.IssueRecord → Bool)
    (hp : ∀ sev c, p (BackupManager.change_record sev c) = false) :
    ∀ (l : List BreakingChange)
      (acc : List BackupManager.IssueRecord × List BackupManager.IssueRecord),
      (l.foldl BackupManager.bc_step acc).2.countP p = acc.2.countP p := by
  intro l
  induction l with
  | nil => intro acc; rfl
  | cons c t ih =>
    intro acc
    rw [List.foldl_cons, ih]
    unfold BackupManager.bc_step
    dsimp only
    split
    · rfl
    · simp [List.countP_append, List.countP_cons, hp]

/-- The version block of step 7 contributes the medium version warning
exactly when the comparison is incompatible, the diff is not `newer`,
and the month distance exceeds 6. -/
lemma version_warnings_characterization (vc : BackupAnalyzer.VersionComparison)
    (bv cv : String) :
    (BackupManager.version_issues_warnings vc bv cv).2.countP
        (fun w => w.type == "version" && w.severity == "medium")
      = if vc.compatible = false ∧ vc.version_diff ≠ some "newer" ∧
           vc.total_months_diff.getD 0 > 6
        then 1 else 0 := by
  unfold BackupManager.version_issues_warnings
  by_cases h1 : vc.compatible
  · rw [if_pos h1, if_neg]
    · rfl
    · simp [h1]
  · rw [if_neg h1]
    by_cases h2 : vc.version_diff = some "newer"
    · rw [if_pos (by simp [h2]), if_neg]
      · rfl
      · simp [h2]
    · rw [if_neg (by simp [h2])]
      by_cases h3 : vc.total_months_diff.getD 0 > 6
      · rw [if_pos h3, if_pos]
        · rfl
        · exact ⟨by simpa using h1, h2, h3⟩
      · rw [if_neg h3, if_neg]
        · rfl
        · rintro ⟨-, -, hmonths⟩
          exact h3 hmonths

/-- **C3, amended.**  In every assembled report, the warning list holds
exactly one `{type: version, severity: medium}` entry when the version
comparison is *incompatible* with a non-`newer` diff and
`total_months_diff > 6`, and none otherwise — in particular a
compatible comparison never contributes the warning, however old the
backup. -/
theorem c3_amended (backup_id : String) (analysis : BackupAnalyzer.ParsedManifest)
    (current_version : String) (db : BreakingChangesDB.DbState) (now : String) :
    ((BackupManager.build_report backup_id analysis current_version db now).warnings.getD
        []).countP (fun w => w.type == "version" && w.severity == "medium")
      = if (BackupAnalyzer.compare_versions analysis.homeassistant_version
              current_version).compatible = false ∧
           (BackupAnalyzer.compare_versions analysis.homeassistant_version
              current_version).version_diff ≠ some "newer" ∧
           (BackupAnalyzer.compare_versions analysis.homeassistant_version
              current_version).total_months_diff.getD 0 > 6
        then 1 else 0 := by
  unfold BackupManager.build_report
  dsimp only
  rw [Option.getD_some, List.countP_append]
  rw [show (BackupManager.bc_issues_warnings
      (BreakingChangesDB.find_breaking_changes db analysis.homeassistant_version
        current_version analysis.integrations)).2.countP
      (fun w => w.type == "version" && w.severity == "medium") = 0 from
    bc_fold_warnings_countP _ (fun sev c => rfl) _ ([], [])]
  rw [version_warnings_characterization]
  omega

/-!
C1 — the end-to-end validation scenario.
-/

/-- **C1, counterexample.**  The claim says the matched breaking changes
include the zha 2024.9.0 record and the report is
incompatible/high; but the derived integrations do not contain `zha`
(only `mqtt` is inferred from the `zigbee2mqtt` addon, next to the three
core integrations), so the zha record is filtered out exactly like the
esphome one: the matched set is only the mqtt record, and the report is
`compatible_with_warnings`/`medium`. -/
theorem c1_counterexample :
    (BreakingChangesDB.find_breaking_changes curated_db "2024.5.0" "2024.10.1"
        (BackupAnalyzer.extract_integrations e2e_manifest)).map (fun c => c.id)
      = [some "mqtt_2024_10"] ∧
    e2e_report.status ≠ "incompatible" ∧
    e2e_report.risk_level ≠ "high" := by
  refine ⟨by decide, by decide, by decide⟩

/-- **C1, amended.**  End-to-end on the claim's inputs: the derived
integrations are exactly `default_config`, `homeassistant`, `mqtt`,
`system_health` (so they include `mqtt`); the matched breaking changes
are exactly the mqtt 2024.10.0 record — the zha 2024.9.0 and esphome
2024.8.0 records are both excluded because neither integration is
derived — and the report has status `compatible_with_warnings` with
risk_level `medium` (no issues, one medium breaking-change warning). -/
theorem c1_amended :
    BackupAnalyzer.extract_integrations e2e_manifest
      = ["default_config", "homeassistant", "mqtt", "system_health"] ∧
    BreakingChangesDB.find_breaking_changes curated_db "2024.5.0" "2024.10.1"
        (BackupAnalyzer.extract_integrations e2e_manifest) = [mqtt_change] ∧
    e2e_report.status = "compatible_with_warnings" ∧
    e2e_report.risk_level = "medium" ∧
    e2e_report.issues = some [] ∧
    (e2e_report.warnings.getD []).map (fun w => (w.type, w.severity))
      = [("breaking_change", "medium")] := by
  refine ⟨by decide, by decide, by decide, by decide, by decide, by decide⟩

/-!
C9 — the orchestrator's error handling.
-/

/-- The status chosen in step 8 is never the error sentinel. -/
lemma overall_status_ne_error (issues warnings : List BackupManager.IssueRecord)
    (risk : BreakingChangesDB.RiskAssessment) :
    (BackupManager.overall_status issues warnings risk).1 ≠ "error" := by
  unfold BackupManager.overall_status
  split_ifs <;> decide

/-- An assembled (non-error-path) report is never status `error`. -/
lemma build_report_status_ne_error (backup_id : String)
    (analysis : BackupAnalyzer.ParsedManifest) (current_version : String)
    (db : BreakingChangesDB.DbState) (now : String) :
    (BackupManager.build_report backup_id analysis current_version db now).status ≠ "error" := by
  unfold BackupManager.build_report
  dsimp only
  exact overall_status_ne_error _ _ _

/-- **C9 (confirmed).**  `validate_backup` is a total function of its
inputs (no exception reaches the caller); whenever any step fails — the
backup download raises, the analysis fails, or the current-version fetch
raises — the result is a report with status `error`, risk_level
`unknown` and the error text attached; and conversely every
status-`error` report carries risk_level `unknown` and an error text. -/
theorem c9_error_handling (backup_id : String) (download : Except String Archive)
    (ha_version : Except String (Option String)) (db : BreakingChangesDB.DbState)
    (now : String) :
    (((∃ e, download = .error e) ∨
      (∃ a err, download = .ok a ∧ BackupAnalyzer.analyze_backup a = .failure err) ∨
      (∃ e, ha_version = .error e)) →
      (BackupManager.validate_backup backup_id download ha_version db now).status
        = "error") ∧
    ((BackupManager.validate_backup backup_id download ha_version db now).status
        = "error" →
      (BackupManager.validate_backup backup_id download ha_version db now).risk_level
          = "unknown" ∧
      (BackupManager.validate_backup backup_id download ha_version db now).error.isSome
          = true) := by
  cases download with
  | error e => exact ⟨fun _ => rfl, fun _ => ⟨rfl, rfl⟩⟩
  | ok a =>
    cases han : BackupAnalyzer.analyze_backup a with
    | failure err =>
      have hval : BackupManager.validate_backup backup_id (.ok a) ha_version db now
          = BackupManager.error_report backup_id err now := by
        simp only [BackupManager.validate_backup, han]
      rw [hval]
      exact ⟨fun _ => rfl, fun _ => ⟨rfl, rfl⟩⟩
    | ok analysis =>
      cases ha_version with
      | error e =>
        have hval : BackupManager.validate_backup backup_id (.ok a) (.error e) db now
            = BackupManager.error_report backup_id e now := by
          simp only [BackupManager.validate_backup, han]
        rw [hval]
        exact ⟨fun _ => rfl, fun _ => ⟨rfl, rfl⟩⟩
      | ok v =>
        have hval : BackupManager.validate_backup backup_id (.ok a) (.ok v) db now
            = BackupManager.build_report backup_id analysis (v.getD "Unknown") db now := by
          simp only [BackupManager.validate_backup, han]
        rw [hval]
        constructor
        · rintro (⟨e, he⟩ | ⟨a', err, ha', hfail⟩ | ⟨e, he⟩)
          · exact absurd he (by simp)
          · rw [Except.ok.injEq] at ha'
            subst ha'
            rw [han] at hfail
            exact absurd hfail (by simp)
          · exact absurd he (by simp)
        · intro hstatus
          exact absurd hstatus (build_report_status_ne_error _ _ _ _ _)

/-- **C9, witness**: a failed download yields the error report. -/
theorem c9_error_handling_witness :
    (BackupManager.validate_backup "backup_9" (.error "Connection refused")
      (.ok none) curated_db "t").status = "error" :=
  (c9_error_handling "backup_9" (.error "Connection refused") (.ok none)
    curated_db "t").1 (Or.inl ⟨"Connection refused", rfl⟩)

/-!
C10 — report truncation.
-/

/-- **C10 (confirmed).**  In every successful validation, the report's
`integrations` block holds the full integration count next to only the
first 20 integrations, and the `addons` block holds the full addon
count next to only the first 10 addon names. -/
theorem c10_truncation (backup_id : String) (ar : Archive) (m : Manifest)
    (v : Option String) (db : BreakingChangesDB.DbState) (now : String)
    (h : BackupAnalyzer.extract_manifest ar = some m) :
    (BackupManager.validate_backup backup_id (.ok ar) (.ok v) db now).integrations
      = some ⟨(BackupAnalyzer.parse_manifest m).integrations.length,
              (BackupAnalyzer.parse_manifest m).integrations.take 20⟩ ∧
    ((BackupManager.validate_backup backup_id (.ok ar) (.ok v) db now).integrations.getD
        ⟨0, []⟩).list.length ≤ 20 ∧
    (BackupManager.validate_backup backup_id (.ok ar) (.ok v) db now).addons
      = some ⟨(BackupAnalyzer.parse_manifest m).addons.length,
              ((BackupAnalyzer.parse_manifest m).addons.map (fun a => a.name)).take 10⟩ ∧
    ((BackupManager.validate_backup backup_id (.ok ar) (.ok v) db now).addons.getD
        ⟨0, []⟩).list.length ≤ 10 := by
  have hval : BackupManager.validate_backup backup_id (.ok ar) (.ok v) db now
      = BackupManager.build_report backup_id (BackupAnalyzer.parse_manifest m)
          (v.getD "Unknown") db now := by
    simp only [BackupManager.validate_backup, BackupAnalyzer.analyze_backup, h]
  rw [hval]
  have hintc : (BackupAnalyzer.parse_manifest m).integration_count
      = (BackupAnalyzer.parse_manifest m).integrations.length := by
    unfold BackupAnalyzer.parse_manifest
    dsimp only
  have haddc : (BackupAnalyzer.parse_manifest m).addon_count
      = (BackupAnalyzer.parse_manifest m).addons.length := by
    unfold BackupAnalyzer.parse_manifest
    dsimp only
  unfold BackupManager.build_report
  dsimp only
  refine ⟨by rw [hintc], ?_, by rw [haddc], ?_⟩
  · exact List.length_take_le 20 (BackupAnalyzer.parse_manifest m).integrations
  · exact List.length_take_le 10
      ((BackupAnalyzer.parse_manifest m).addons.map (fun a => a.name))

/-- **C10, witness** at the end-to-end archive. -/
theorem c10_truncation_witness :
    ((BackupManager.validate_backup "backup_10" (.ok e2e_archive) (.ok (some "2024.10.1"))
        curated_db "t").integrations.getD ⟨0, []⟩).list.length ≤ 20 :=
  (c10_truncation "backup_10" e2e_archive e2e_manifest (some "2024.10.1")
    curated_db "t" (by decide)).2.1
